import Mathlib

/-!
Shallow embedding of `src/email_client.py` (the sync reconciler, the SQLite
mirror store `Storage`, and the protocol result shaping of `EmailServer`).

The SQLite database is modelled as explicit lists of rows.  Each SQL statement
executed by the program is modelled as a function returning `Except SqlErr`,
reproducing SQLite's constraint checks in the order SQLite performs them
(NOT NULL, then CHECK constraints in declaration order, then UNIQUE, then
FOREIGN KEY, with `PRAGMA foreign_keys = ON` and immediate enforcement).
`sqlite_txn` models the `BEGIN IMMEDIATE ... COMMIT / ROLLBACK` context
manager: on any error the durable state reverts to the state at transaction
start.

The `emails` and `email_data` tables are declared by `DB_INIT_STATEMENTS` but
no statement in the program ever writes to them, so they stay empty and are
omitted from the state.  The `misc` table only ever holds the single key
`folders-state`, but it is modelled as a full key/value table.  Note that the
two table-level CHECK constraints of `misc` are written without a separating
comma in the source; SQLite's grammar accepts an omitted comma between table
constraints, so both checks are enforced.
-/

namespace EmailClient

/-- Kinds of SQLite constraint violation; all surface in Python as
`sqlite3.IntegrityError`. -/
inductive SqlErr where
  | notNull
  | check
  | uniq
  | fk
deriving DecidableEq

/-- Python-level failure outcomes of the storage operations.
`integrityError` wraps an SQLite constraint violation.
`stateConflictError` is the error named by the specification's taxonomy for
double initialization; no operation in the source ever constructs it.
`typeError` models an uncaught Python `TypeError` (subscripting `None`). -/
inductive PyErr where
  | integrityError (kind : SqlErr)
  | stateConflictError
  | typeError
deriving DecidableEq

deriving instance DecidableEq for Except

/-- A row of the `accounts` table. -/
structure AccountRow where
  id : Int
  name : String
  type_ : String
deriving DecidableEq

/-- A row of the `folders` table.  `account_id` is `Option` so that the
INSERT in `update_folders`, which omits the column (making it NULL), can be
expressed; the NOT NULL constraint is enforced by `insertFolder`. -/
structure FolderRow where
  account_id : Option Int
  server_id : String
  name : String
  parent_server_id : Option String
  role : Option String
  sort_order : Int
deriving DecidableEq

/-- A row of the `misc` table. -/
structure MiscRow where
  key : String
  value : String
deriving DecidableEq

/-- The database state: the tables the program actually writes. -/
structure DB where
  accounts : List AccountRow
  folders : List FolderRow
  misc : List MiscRow
deriving DecidableEq

/-- `INSERT INTO accounts(name, type) VALUES(?, ?)` followed by reading
`cursor.lastrowid`.  Checks: CHECK name, CHECK type, UNIQUE name. -/
def insertAccount (accounts : List AccountRow) (name ty : String) :
    Except SqlErr (List AccountRow × Int) :=
  if name = "" then .error .check
  else if !(ty = "JMAP" || ty = "IMAP" || ty = "local") then .error .check
  else if accounts.any (fun a => a.name == name) then .error .uniq
  else
    let newId := (accounts.foldl (fun m a => max m a.id) 0) + 1
    .ok (accounts ++ [{ id := newId, name := name, type_ := ty }], newId)

/-- `INSERT INTO folders(...)`.  Checks in SQLite order: NOT NULL
(`account_id`), the three CHECKs, UNIQUE `server_id`, then the two foreign
keys (`account_id` then `parent_server_id`; the new row itself is visible to
the parent lookup, as it is in SQLite). -/
def insertFolder (accounts : List AccountRow) (folders : List FolderRow)
    (r : FolderRow) : Except SqlErr (List FolderRow) :=
  if r.account_id.isNone then .error .notNull
  else if r.server_id = "" then .error .check
  else if r.name = "" then .error .check
  else if r.parent_server_id = some "" then .error .check
  else if folders.any (fun q => q.server_id == r.server_id) then .error .uniq
  else if !(accounts.any (fun a => some a.id == r.account_id)) then .error .fk
  else
    match r.parent_server_id with
    | none => .ok (folders ++ [r])
    | some p =>
        if (folders ++ [r]).any (fun q => q.server_id == p) then .ok (folders ++ [r])
        else .error .fk

/-- `UPDATE folders SET name=?, role=?, parent_server_id=?, sort_order=?
WHERE server_id=?`.  A statement matching no row performs no checks; otherwise
the modified rows must satisfy the CHECKs and the parent foreign key. -/
def updateFolderRow (folders : List FolderRow) (uid uname : String)
    (urole uparent : Option String) (usort : Int) : Except SqlErr (List FolderRow) :=
  if folders.all (fun r => r.server_id != uid) then .ok folders
  else if uname = "" then .error .check
  else if uparent = some "" then .error .check
  else
    match uparent with
    | none =>
        .ok (folders.map (fun r =>
          if r.server_id == uid then
            { r with name := uname, role := urole, parent_server_id := uparent,
                     sort_order := usort }
          else r))
    | some p =>
        if (folders.map (fun r =>
              if r.server_id == uid then
                { r with name := uname, role := urole, parent_server_id := uparent,
                         sort_order := usort }
              else r)).any (fun q => q.server_id == p) then
          .ok (folders.map (fun r =>
            if r.server_id == uid then
              { r with name := uname, role := urole, parent_server_id := uparent,
                       sort_order := usort }
            else r))
        else .error .fk

/-- `DELETE FROM folders WHERE server_id=?`.  Deleting no row performs no
checks; otherwise the immediate foreign-key check fails if a remaining row
still references the deleted `server_id`. -/
def deleteFolder (folders : List FolderRow) (sid : String) :
    Except SqlErr (List FolderRow) :=
  if folders.all (fun r => r.server_id != sid) then .ok folders
  else if (folders.filter (fun r => r.server_id != sid)).any
      (fun r => r.parent_server_id == some sid) then .error .fk
  else .ok (folders.filter (fun r => r.server_id != sid))

/-- `INSERT INTO misc(key, value) VALUES(?, ?)`.  Checks: CHECK key,
CHECK value, UNIQUE key. -/
def insertMisc (misc : List MiscRow) (k v : String) :
    Except SqlErr (List MiscRow) :=
  if k = "" then .error .check
  else if v = "" then .error .check
  else if misc.any (fun r => r.key == k) then .error .uniq
  else .ok (misc ++ [{ key := k, value := v }])

/-- `UPDATE misc SET value = ? WHERE key = ?`.  Matching no row performs no
checks; otherwise the CHECK on `value` applies to the modified rows. -/
def updateMiscValue (misc : List MiscRow) (k v : String) :
    Except SqlErr (List MiscRow) :=
  if misc.all (fun r => r.key != k) then .ok misc
  else if v = "" then .error .check
  else .ok (misc.map (fun r => if r.key == k then { key := r.key, value := v } else r))

/-- Run a list of statements left to right, stopping at the first error
(the loop bodies inside `with sqlite_txn(cursor):` blocks). -/
def applyAll (step : β → α → Except SqlErr β) : β → List α → Except SqlErr β
  | b, [] => .ok b
  | b, x :: xs =>
      match step b x with
      | .error e => .error e
      | .ok b2 => applyAll step b2 xs

/-- The `sqlite_txn` context manager: `BEGIN IMMEDIATE`, run the body,
`COMMIT` on success; on any exception `ROLLBACK` (the durable state reverts
to the state `db` at transaction start) and re-raise.  Returns the
Python-level outcome together with the durable database afterwards. -/
def sqlite_txn (db : DB) (body : Except PyErr DB) : Except PyErr Unit × DB :=
  match body with
  | .ok db2 => (.ok (), db2)
  | .error e => (.error e, db)

/-- `Storage.folders_state`: `SELECT value FROM misc WHERE key =
'folders-state'`, `None` when no row matches. -/
def folders_state (db : DB) : Option String :=
  (db.misc.find? (fun r => r.key == "folders-state")).map (fun r => r.value)

/-- A folder dict as returned by `EmailServer.get_folders`
(keys `server_id`, `name`, `role`, `parent_id`, `sort_order`). -/
structure NewFolder where
  server_id : String
  name : String
  role : Option String
  parent_id : Option String
  sort_order : Int
deriving DecidableEq

/-- A created/updated folder dict as shaped by
`EmailServer.get_folder_changes` (keys `id`, `name`, `role`, `parent_id`,
`sort_order`). -/
structure ChangedFolder where
  id : String
  name : String
  role : Option String
  parent_id : Option String
  sort_order : Int
deriving DecidableEq

/-- A deleted folder dict (key `id`). -/
structure DeletedFolder where
  id : String
deriving DecidableEq

/-- The `folder_changes` dict handed to `Storage.update_folders`. -/
structure Changes where
  created : List ChangedFolder
  deleted : List DeletedFolder
  updated : List ChangedFolder
deriving DecidableEq

/-- The row inserted for a created folder by `update_folders`: the INSERT
lists only `(server_id, name, role, parent_server_id, sort_order)`, so
`account_id` is NULL. -/
def createdRow (f : ChangedFolder) : FolderRow :=
  { account_id := none, server_id := f.id, name := f.name,
    parent_server_id := f.parent_id, role := f.role, sort_order := f.sort_order }

/-- `Storage.save_folders(folders, state, account_name)`: one transaction
inserting the account, every folder (with the fresh `account_id`), and the
`folders-state` row. -/
def save_folders (db : DB) (folders : List NewFolder) (state account_name : String) :
    Except PyErr Unit × DB :=
  sqlite_txn db
    (match insertAccount db.accounts account_name "JMAP" with
     | .error e => .error (.integrityError e)
     | .ok (accounts2, accountId) =>
       match applyAll (fun fs f => insertFolder accounts2 fs
           { account_id := some accountId, server_id := f.server_id, name := f.name,
             parent_server_id := f.parent_id, role := f.role,
             sort_order := f.sort_order }) db.folders folders with
       | .error e => .error (.integrityError e)
       | .ok folders2 =>
         match insertMisc db.misc "folders-state" state with
         | .error e => .error (.integrityError e)
         | .ok misc2 =>
             .ok { accounts := accounts2, folders := folders2, misc := misc2 })

/-- `Storage.update_folders(folder_changes, state)`: one transaction applying
the created inserts, then the updates, then the deletes, then
`UPDATE misc SET value = state WHERE key = 'folders-state'`. -/
def update_folders (db : DB) (folder_changes : Changes) (state : String) :
    Except PyErr Unit × DB :=
  sqlite_txn db
    (match applyAll (fun fs f => insertFolder db.accounts fs (createdRow f))
         db.folders folder_changes.created with
     | .error e => .error (.integrityError e)
     | .ok fs1 =>
       match applyAll (fun fs f =>
           updateFolderRow fs f.id f.name f.role f.parent_id f.sort_order)
           fs1 folder_changes.updated with
       | .error e => .error (.integrityError e)
       | .ok fs2 =>
         match applyAll (fun fs d => deleteFolder fs d.id) fs2 folder_changes.deleted with
         | .error e => .error (.integrityError e)
         | .ok fs3 =>
           match updateMiscValue db.misc "folders-state" state with
           | .error e => .error (.integrityError e)
           | .ok misc2 => .ok { accounts := db.accounts, folders := fs3, misc := misc2 })

/-- `Storage.get_folders(parent_id)` result rows (`server_id`, `name`). -/
structure FolderSummary where
  server_id : String
  name : String
deriving DecidableEq

/-- `Storage.get_folder(folder_id)` result dict (`id`, `name`). -/
structure GotFolder where
  id : String
  name : String
deriving DecidableEq

/-- The `ORDER BY sort_order,name` comparison on folder rows. -/
def folderLe (a b : FolderRow) : Prop :=
  a.sort_order < b.sort_order ∨ (a.sort_order = b.sort_order ∧ a.name ≤ b.name)

instance : DecidableRel folderLe := fun a b => by
  unfold folderLe
  exact inferInstance

instance : IsTotal FolderRow folderLe := by
  constructor
  intro a b
  rcases lt_trichotomy a.sort_order b.sort_order with h | h | h
  · exact Or.inl (Or.inl h)
  · rcases le_total a.name b.name with hn | hn
    · exact Or.inl (Or.inr ⟨h, hn⟩)
    · exact Or.inr (Or.inr ⟨h.symm, hn⟩)
  · exact Or.inr (Or.inl h)

instance : IsTrans FolderRow folderLe := by
  constructor
  intro a b c hab hbc
  rcases hab with h1 | ⟨e1, n1⟩
  · rcases hbc with h2 | ⟨e2, _⟩
    · exact Or.inl (h1.trans h2)
    · exact Or.inl (e2 ▸ h1)
  · rcases hbc with h2 | ⟨e2, n2⟩
    · exact Or.inl (e1 ▸ h2)
    · exact Or.inr ⟨e1.trans e2, n1.trans n2⟩

/-- Python truthiness of `parent_id` (an optional string): `None` and the
empty string are falsy. -/
def pyTruthyStr : Option String → Bool
  | none => false
  | some s => s != ""

/-- `Storage.get_folders(parent_id)`: `if parent_id:` selects the rows with
`parent_server_id = parent_id`, otherwise the rows with
`parent_server_id IS NULL`; both ordered by `(sort_order, name)`. -/
def get_folders (db : DB) (parent_id : Option String) : List FolderSummary :=
  let rows :=
    if pyTruthyStr parent_id then
      db.folders.filter (fun r => r.parent_server_id == parent_id)
    else
      db.folders.filter (fun r => r.parent_server_id == none)
  (List.insertionSort folderLe rows).map (fun r => { server_id := r.server_id, name := r.name })

/-- `Storage.get_folder(folder_id)`: `fetchone()` on the matching rows, then
`folder[0]`/`folder[1]`; when no row matches, `fetchone()` returns `None` and
the subscript raises an uncaught `TypeError`. -/
def get_folder (db : DB) (folder_id : String) : Except PyErr GotFolder :=
  match db.folders.find? (fun r => r.server_id == folder_id) with
  | some r => .ok { id := r.server_id, name := r.name }
  | none => .error .typeError

/-- A mailbox object of a `Mailbox/get` response list. -/
structure MailboxObj where
  id : String
  name : String
  role : Option String
  parentId : Option String
  sortOrder : Int
deriving DecidableEq

/-- The `Mailbox/get` response used by `EmailServer.get_folders`. -/
structure FullResp where
  state : String
  list : List MailboxObj
deriving DecidableEq

/-- The `Mailbox/changes` response fields used by
`EmailServer.get_folder_changes`.  `updatedProperties` is `none` for JSON
`null` and `some l` for a property list `l`. -/
structure MailboxChangesResp where
  newState : String
  created : List String
  updated : List String
  destroyed : List String
  updatedProperties : Option (List String)
deriving DecidableEq

/-- Python truthiness of a list. -/
def pyTruthyList (l : List α) : Bool :=
  !l.isEmpty

/-- Python truthiness of `updatedProperties` (`None` and `[]` are falsy). -/
def pyTruthyOptList : Option (List String) → Bool
  | none => false
  | some l => !l.isEmpty

/-- Shape a mailbox object into the dict used for created/updated entries. -/
def toChanged (m : MailboxObj) : ChangedFolder :=
  { id := m.id, name := m.name, role := m.role, parent_id := m.parentId,
    sort_order := m.sortOrder }

/-- `EmailServer.get_folders`: returns the state and the folder dicts. -/
def server_get_folders (resp : FullResp) : String × List NewFolder :=
  (resp.state,
   resp.list.map (fun m =>
     { server_id := m.id, name := m.name, role := m.role, parent_id := m.parentId,
       sort_order := m.sortOrder }))

/-- The response-shaping part of `EmailServer.get_folder_changes`: given the
`Mailbox/changes` response and the two follow-up `Mailbox/get` response lists
(for the created ids and the updated ids), build `(new_state, changes)`.
`deleted` always maps the destroyed ids; `created` is filled only when the
created id list is truthy; `updated` is filled only when the updated id list
is truthy and `updatedProperties` is falsy. -/
def get_folder_changes (sinceState : String) (resp : MailboxChangesResp)
    (createdObjs updatedObjs : List MailboxObj) : String × Changes :=
  let deleted := resp.destroyed.map (fun i => ({ id := i } : DeletedFolder))
  let created :=
    if pyTruthyList resp.created then createdObjs.map toChanged else []
  let updated :=
    if pyTruthyList resp.updated && !(pyTruthyOptList resp.updatedProperties) then
      updatedObjs.map toChanged
    else []
  (resp.newState, { created := created, deleted := deleted, updated := updated })

/-- The `__main__` sync pass: `if not storage.folders_state:` full fetch and
`save_folders`, else `get_folder_changes(storage.folders_state)` and
`update_folders`.  The server responses are parameters (the network is an
external collaborator). -/
def main_sync (db : DB) (account_name : String) (full : FullResp)
    (chResp : MailboxChangesResp) (createdObjs updatedObjs : List MailboxObj) :
    Except PyErr Unit × DB :=
  match folders_state db with
  | some tok =>
      if tok = "" then
        let p := server_get_folders full
        save_folders db p.2 p.1 account_name
      else
        let p := get_folder_changes tok chResp createdObjs updatedObjs
        update_folders db p.2 p.1
  | none =>
      let p := server_get_folders full
      save_folders db p.2 p.1 account_name

/-! ### Helper lemmas -/

theorem applyAll_nil (step : β → α → Except SqlErr β) (b : β) :
    applyAll step b [] = .ok b := rfl

theorem applyAll_cons (step : β → α → Except SqlErr β) (b : β) (x : α) (xs : List α) :
    applyAll step b (x :: xs)
      = match step b x with
        | .error e => .error e
        | .ok b2 => applyAll step b2 xs := rfl

/-- Setting the value of every row whose key matches commutes with `find?`. -/
theorem find?_map_setValue (misc : List MiscRow) (k v : String) :
    (misc.map (fun r => if r.key == k then ({ key := r.key, value := v } : MiscRow) else r)).find?
        (fun r => r.key == k)
      = (misc.find? (fun r => r.key == k)).map
          (fun r => ({ key := r.key, value := v } : MiscRow)) := by
  induction misc with
  | nil => rfl
  | cons r rest ih =>
      by_cases h : (r.key == k) = true
      · have hset : ((if (r.key == k) = true then ({ key := r.key, value := v } : MiscRow)
            else r).key == k) = true := by
          rw [if_pos h]
          exact h
        rw [List.map_cons, List.find?_cons_of_pos (p := fun q : MiscRow => q.key == k) _ hset,
          List.find?_cons_of_pos (p := fun q : MiscRow => q.key == k) _ h]
        rw [if_pos h]
        rfl
      · have hset : (if (r.key == k) = true then ({ key := r.key, value := v } : MiscRow)
            else r) = r := if_neg h
        rw [List.map_cons, hset, List.find?_cons_of_neg (p := fun q : MiscRow => q.key == k) _ h,
          List.find?_cons_of_neg (p := fun q : MiscRow => q.key == k) _ h, ih]

/-- If the `folders-state` row is present, `updateMiscValue` with a non-empty
value succeeds and rewrites exactly the matching rows. -/
theorem updateMiscValue_found (misc : List MiscRow) (v : String) (r : MiscRow)
    (h : misc.find? (fun q => q.key == "folders-state") = some r) (hv : v ≠ "") :
    updateMiscValue misc "folders-state" v
      = .ok (misc.map (fun q =>
          if q.key == "folders-state" then { key := q.key, value := v } else q)) := by
  have hmem : r ∈ misc := List.mem_of_find?_eq_some h
  have hkey := List.find?_some h
  have hall : ¬ (misc.all (fun q => q.key != "folders-state") = true) := by
    intro hall
    have hr := List.all_eq_true.mp hall r hmem
    rw [beq_iff_eq] at hkey
    simp [hkey] at hr
  unfold updateMiscValue
  rw [if_neg hall, if_neg hv]

/-- Any successful or failed run of `update_folders` has one of two shapes:
an error with the database rolled back, or a commit whose `misc` table is the
result of the token update and whose `accounts` table is untouched. -/
theorem update_folders_cases (db : DB) (ch : Changes) (st : String) :
    (∃ e, update_folders db ch st = (.error e, db))
    ∨ (∃ fs3 misc2, updateMiscValue db.misc "folders-state" st = .ok misc2
        ∧ update_folders db ch st
            = (.ok (), { accounts := db.accounts, folders := fs3, misc := misc2 })) := by
  obtain ⟨res, hres⟩ : ∃ r, update_folders db ch st = r := ⟨_, rfl⟩
  rw [hres]
  unfold update_folders sqlite_txn at hres
  split at hres
  case h_1 db2 heq =>
    refine Or.inr ?_
    split at heq
    · exact absurd heq (by simp)
    split at heq
    · exact absurd heq (by simp)
    split at heq
    · exact absurd heq (by simp)
    split at heq
    · exact absurd heq (by simp)
    next misc2 hm =>
      injection heq with h2
      exact ⟨_, misc2, hm, by rw [← hres, ← h2]⟩
  case h_2 e heq =>
    exact Or.inl ⟨e, by rw [← hres]⟩

/-! ### Claim C1 -/

/-- C1: if `update_folders` (the Store's applyDiff) fails for any reason, the
entire transaction is rolled back, so the folder rows and the persisted token
are exactly what they were before the call; and the token is only ever
changed inside the same transaction that applies the diff.  Formally: given a
persisted token, either the database afterwards is exactly the database
before (every failure lands here), or the call succeeded and the persisted
token is exactly the diff's new token. -/
theorem update_folders_atomic_token_coupled (db : DB) (ch : Changes) (st t0 : String)
    (h : folders_state db = some t0) :
    (update_folders db ch st).2 = db
    ∨ ((update_folders db ch st).1 = .ok ()
        ∧ folders_state (update_folders db ch st).2 = some st) := by
  rcases update_folders_cases db ch st with ⟨e, he⟩ | ⟨fs3, misc2, hm, hok⟩
  · exact Or.inl (by rw [he])
  · refine Or.inr ⟨by rw [hok], ?_⟩
    rcases hf : db.misc.find? (fun q => q.key == "folders-state") with _ | r
    · exact absurd h (by simp [folders_state, hf])
    have hv : st ≠ "" := by
      intro hst
      have hall : ¬ (db.misc.all (fun q => q.key != "folders-state") = true) := by
        intro hall
        have hr := List.all_eq_true.mp hall r (List.mem_of_find?_eq_some hf)
        have hkey : r.key = "folders-state" := by
          have := List.find?_some hf
          rwa [beq_iff_eq] at this
        simp [hkey] at hr
      rw [updateMiscValue, if_neg hall, if_pos hst] at hm
      exact Except.noConfusion hm
    rw [updateMiscValue_found db.misc st r hf hv] at hm
    have hmisc : misc2 = db.misc.map (fun q =>
        if q.key == "folders-state" then { key := q.key, value := st } else q) := by
      injection hm with hm2
      exact hm2.symm
    rw [hok]
    simp only [folders_state, hmisc, find?_map_setValue, hf]
    rfl

/-- C1 witness: at a mirror holding token `t1`, applying an empty diff with
new token `t2` commits and the persisted token becomes `t2`. -/
theorem update_folders_atomic_token_coupled_witness :
    (update_folders ⟨[⟨1, "acct", "JMAP"⟩], [], [⟨"folders-state", "t1"⟩]⟩
        ⟨[], [], []⟩ "t2").2
      = (⟨[⟨1, "acct", "JMAP"⟩], [], [⟨"folders-state", "t1"⟩]⟩ : DB)
    ∨ ((update_folders ⟨[⟨1, "acct", "JMAP"⟩], [], [⟨"folders-state", "t1"⟩]⟩
          ⟨[], [], []⟩ "t2").1 = .ok ()
        ∧ folders_state (update_folders ⟨[⟨1, "acct", "JMAP"⟩], [], [⟨"folders-state", "t1"⟩]⟩
            ⟨[], [], []⟩ "t2").2 = some "t2") :=
  update_folders_atomic_token_coupled
    ⟨[⟨1, "acct", "JMAP"⟩], [], [⟨"folders-state", "t1"⟩]⟩ ⟨[], [], []⟩ "t2" "t1" (by decide)

/-! ### Claim C4 -/

/-- C4: the INSERT issued by `update_folders` for created folders omits the
NOT NULL `account_id` column (which has no default), so every diff whose
created set is non-empty fails with an integrity error, the transaction rolls
back, and the mirror (folder rows and token) is left unchanged: no diff
containing a created folder can ever be applied successfully. -/
theorem update_folders_created_never_succeeds (db : DB) (ch : Changes) (st : String)
    (f : ChangedFolder) (fs : List ChangedFolder) (h : ch.created = f :: fs) :
    update_folders db ch st = (.error (.integrityError .notNull), db) := by
  simp only [update_folders, sqlite_txn, h, applyAll, insertFolder, createdRow,
    Option.isNone_none, if_pos]

/-- C4 witness: a diff creating one perfectly well-formed root folder on a
synced mirror still fails with the NOT NULL violation and changes nothing. -/
theorem update_folders_created_never_succeeds_witness :
    update_folders ⟨[⟨1, "acct", "JMAP"⟩], [], [⟨"folders-state", "t1"⟩]⟩
        ⟨[⟨"C", "Gamma", none, none, 0⟩], [], []⟩ "t2"
      = (.error (.integrityError .notNull),
         ⟨[⟨1, "acct", "JMAP"⟩], [], [⟨"folders-state", "t1"⟩]⟩) :=
  update_folders_created_never_succeeds
    ⟨[⟨1, "acct", "JMAP"⟩], [], [⟨"folders-state", "t1"⟩]⟩
    ⟨[⟨"C", "Gamma", none, none, 0⟩], [], []⟩ "t2"
    ⟨"C", "Gamma", none, none, 0⟩ [] rfl

/-! ### Claim C5 -/

/-- `deleteFolder` can only fail with a foreign-key violation. -/
theorem deleteFolder_error_eq (folders : List FolderRow) (sid : String) (e : SqlErr)
    (h : deleteFolder folders sid = .error e) : e = .fk := by
  unfold deleteFolder at h
  split at h
  · exact absurd h (by simp)
  split at h
  · injection h with h2
    exact h2.symm
  · exact absurd h (by simp)

/-- A successful `deleteFolder` keeps every row whose `server_id` differs
from the deleted one. -/
theorem deleteFolder_ok_mem (folders fs2 : List FolderRow) (sid : String)
    (h : deleteFolder folders sid = .ok fs2) (r : FolderRow) (hr : r ∈ folders)
    (hne : r.server_id ≠ sid) : r ∈ fs2 := by
  unfold deleteFolder at h
  split at h
  · injection h with h2
    exact h2 ▸ hr
  split at h
  · exact absurd h (by simp)
  · injection h with h2
    rw [← h2]
    refine List.mem_filter.mpr ⟨hr, ?_⟩
    simpa using hne

/-- Running the deletion loop over a destroyed set that contains some node
`P` with a surviving child `C` (present, referencing `P`, and itself not in
the destroyed set) always hits the foreign-key violation. -/
theorem applyAll_delete_guard (ds : List DeletedFolder) :
    ∀ (folders : List FolderRow) (P : String) (C rp : FolderRow),
      (∃ d ∈ ds, d.id = P) → C ∈ folders → C.parent_server_id = some P →
      (∀ d ∈ ds, d.id ≠ C.server_id) → rp ∈ folders → rp.server_id = P →
      applyAll (fun fs d => deleteFolder fs d.id) folders ds = .error .fk := by
  induction ds with
  | nil =>
      intro folders P C rp hPs _ _ _ _ _
      rcases hPs with ⟨d, hd, _⟩
      exact absurd hd (List.not_mem_nil d)
  | cons d rest ih =>
      intro folders P C rp hPs hC hCp hCn hrp hrpid
      rw [applyAll_cons]
      rcases hstep : deleteFolder folders d.id with e | fs2
      · rw [deleteFolder_error_eq folders d.id e hstep]
      · by_cases hdP : d.id = P
        · exfalso
          unfold deleteFolder at hstep
          split at hstep
          next hall =>
            have h1 := List.all_eq_true.mp hall rp hrp
            rw [hrpid] at h1
            rw [hdP] at h1
            simp at h1
          split at hstep
          · exact absurd hstep (by simp)
          next hany =>
            refine hany (List.any_eq_true.mpr ⟨C, ?_, ?_⟩)
            · refine List.mem_filter.mpr ⟨hC, ?_⟩
              have := hCn d (List.mem_cons_self d rest)
              simpa using fun h => this h.symm
            · rw [hCp, hdP]
              exact beq_self_eq_true (some P)
        · have hPrest : ∃ d2 ∈ rest, d2.id = P := by
            rcases hPs with ⟨d2, hd2, hid⟩
            rcases List.mem_cons.mp hd2 with h | h
            · exact absurd (h ▸ hid) hdP
            · exact ⟨d2, h, hid⟩
          have hCne : C.server_id ≠ d.id :=
            fun h => hCn d (List.mem_cons_self d rest) h.symm
          have hrpne : rp.server_id ≠ d.id := fun h => hdP (by rw [← h]; exact hrpid)
          exact ih fs2 P C rp hPrest
            (deleteFolder_ok_mem folders fs2 d.id hstep C hC hCne) hCp
            (fun d2 h2 => hCn d2 (List.mem_cons_of_mem d h2))
            (deleteFolder_ok_mem folders fs2 d.id hstep rp hrp hrpne) hrpid

/-- C5: for every diff (containing only deletions) whose destroyed set
contains a node `P` that still has at least one child present in the mirror
(a row `C` referencing `P` that is not itself destroyed), `update_folders`
fails with an IntegrityError (the foreign-key violation), the transaction
rolls back, and both the parent and the child rows remain intact with the
token unchanged (the database afterwards is exactly the one before). -/
theorem update_folders_delete_guard (db : DB) (ch : Changes) (st P : String)
    (C : FolderRow) (hc : ch.created = []) (hu : ch.updated = [])
    (hP : ∃ d ∈ ch.deleted, d.id = P)
    (hC : C ∈ db.folders) (hCp : C.parent_server_id = some P)
    (hCn : ∀ d ∈ ch.deleted, d.id ≠ C.server_id)
    (hrp : ∃ rp ∈ db.folders, rp.server_id = P) :
    update_folders db ch st = (.error (.integrityError .fk), db) := by
  rcases hrp with ⟨rp, hrpm, hrpid⟩
  have hdel := applyAll_delete_guard ch.deleted db.folders P C rp hP hC hCp hCn hrpm hrpid
  simp only [update_folders, sqlite_txn, hc, hu, applyAll_nil, hdel]

/-- C5 witness: deleting folder `A` while its child `B` is still mirrored
fails with the foreign-key IntegrityError and leaves the database unchanged. -/
theorem update_folders_delete_guard_witness :
    ((⟨[], [⟨"A"⟩], []⟩ : Changes).created = [])
    ∧ ((⟨[], [⟨"A"⟩], []⟩ : Changes).updated = [])
    ∧ (∃ d ∈ (⟨[], [⟨"A"⟩], []⟩ : Changes).deleted, d.id = "A")
    ∧ (⟨some 1, "B", "Beta", some "A", none, 0⟩ : FolderRow) ∈
        (⟨[⟨1, "acct", "JMAP"⟩],
          [⟨some 1, "A", "Alpha", none, none, 0⟩, ⟨some 1, "B", "Beta", some "A", none, 0⟩],
          [⟨"folders-state", "t1"⟩]⟩ : DB).folders
    ∧ update_folders
        ⟨[⟨1, "acct", "JMAP"⟩],
         [⟨some 1, "A", "Alpha", none, none, 0⟩, ⟨some 1, "B", "Beta", some "A", none, 0⟩],
         [⟨"folders-state", "t1"⟩]⟩ ⟨[], [⟨"A"⟩], []⟩ "t2"
      = (.error (.integrityError .fk),
         ⟨[⟨1, "acct", "JMAP"⟩],
          [⟨some 1, "A", "Alpha", none, none, 0⟩, ⟨some 1, "B", "Beta", some "A", none, 0⟩],
          [⟨"folders-state", "t1"⟩]⟩) :=
  ⟨rfl, rfl, by decide, by decide,
   update_folders_delete_guard
     ⟨[⟨1, "acct", "JMAP"⟩],
      [⟨some 1, "A", "Alpha", none, none, 0⟩, ⟨some 1, "B", "Beta", some "A", none, 0⟩],
      [⟨"folders-state", "t1"⟩]⟩ ⟨[], [⟨"A"⟩], []⟩ "t2" "A"
     ⟨some 1, "B", "Beta", some "A", none, 0⟩ rfl rfl (by decide) (by decide) (by decide)
     (by decide) (by decide)⟩

/-! ### Claim C10 -/

/-- The update loop over a list of updated entries none of which matches any
mirrored `server_id` leaves the folder table untouched and succeeds. -/
theorem applyAll_update_noop (us : List ChangedFolder) :
    ∀ folders : List FolderRow,
      (∀ u ∈ us, ∀ r ∈ folders, r.server_id ≠ u.id) →
      applyAll (fun fs f => updateFolderRow fs f.id f.name f.role f.parent_id f.sort_order)
        folders us = .ok folders := by
  induction us with
  | nil => intro folders _; rfl
  | cons u rest ih =>
      intro folders h
      rw [applyAll_cons]
      have hall : folders.all (fun r => r.server_id != u.id) = true :=
        List.all_eq_true.mpr (fun r hr => by
          simpa using h u (List.mem_cons_self u rest) r hr)
      have hstep : updateFolderRow folders u.id u.name u.role u.parent_id u.sort_order
          = .ok folders := by
        unfold updateFolderRow
        rw [if_pos hall]
      rw [hstep]
      exact ih folders (fun u2 h2 r hr => h u2 (List.mem_cons_of_mem u h2) r hr)

/-- A diff with empty created and destroyed sets whose updated entries match
no mirrored `server_id` commits while changing only the token row. -/
theorem update_folders_noop_update_frame (db : DB) (ch : Changes) (st t0 : String)
    (hc : ch.created = []) (hd : ch.deleted = [])
    (hu : ∀ u ∈ ch.updated, ∀ r ∈ db.folders, r.server_id ≠ u.id)
    (ht : folders_state db = some t0) (hst : st ≠ "") :
    (update_folders db ch st).1 = .ok ()
    ∧ (update_folders db ch st).2.folders = db.folders
    ∧ (update_folders db ch st).2.accounts = db.accounts
    ∧ (update_folders db ch st).2.misc
        = db.misc.map (fun q =>
            if q.key == "folders-state" then { key := q.key, value := st } else q)
    ∧ folders_state (update_folders db ch st).2 = some st := by
  rcases hf : db.misc.find? (fun q => q.key == "folders-state") with _ | r
  · rw [folders_state, hf] at ht
    exact absurd ht (by simp)
  have hm := updateMiscValue_found db.misc st r hf hst
  have hupd := applyAll_update_noop ch.updated db.folders hu
  have hrun : update_folders db ch st
      = (.ok (), { accounts := db.accounts, folders := db.folders,
                   misc := db.misc.map (fun q =>
                     if q.key == "folders-state" then { key := q.key, value := st } else q) }) := by
    simp only [update_folders, sqlite_txn, hc, hd, applyAll_nil, hupd, hm]
  rw [hrun]
  refine ⟨rfl, rfl, rfl, rfl, ?_⟩
  simp only [folders_state, find?_map_setValue, hf]
  rfl

/-- C10: a diff whose updated set only contains ids with no matching
`server_id` in the mirror (and empty created and destroyed sets) applies
without error: the updates affect zero rows, every folder row and the
accounts table are left unchanged, the transaction commits, and only the
persisted token changes, advancing to the new token. -/
theorem update_folders_unmatched_update_frame (db : DB) (ch : Changes) (st t0 : String)
    (hc : ch.created = []) (hd : ch.deleted = [])
    (hu : ∀ u ∈ ch.updated, ∀ r ∈ db.folders, r.server_id ≠ u.id)
    (ht : folders_state db = some t0) (hst : st ≠ "") :
    (update_folders db ch st).1 = .ok ()
    ∧ (update_folders db ch st).2.folders = db.folders
    ∧ (update_folders db ch st).2.accounts = db.accounts
    ∧ (update_folders db ch st).2.misc
        = db.misc.map (fun q =>
            if q.key == "folders-state" then { key := q.key, value := st } else q)
    ∧ folders_state (update_folders db ch st).2 = some st :=
  update_folders_noop_update_frame db ch st t0 hc hd hu ht hst

/-- C10 witness: updating the unknown id `Z` on a two-folder mirror commits,
touches no folder row, and advances the token from `t1` to `t2`. -/
theorem update_folders_unmatched_update_frame_witness :
    ((⟨[], [], [⟨"Z", "Zed", none, none, 0⟩]⟩ : Changes).created = [])
    ∧ ((⟨[], [], [⟨"Z", "Zed", none, none, 0⟩]⟩ : Changes).deleted = [])
    ∧ folders_state
        ⟨[⟨1, "acct", "JMAP"⟩],
         [⟨some 1, "A", "Alpha", none, none, 0⟩], [⟨"folders-state", "t1"⟩]⟩ = some "t1"
    ∧ ((update_folders
          ⟨[⟨1, "acct", "JMAP"⟩],
           [⟨some 1, "A", "Alpha", none, none, 0⟩], [⟨"folders-state", "t1"⟩]⟩
          ⟨[], [], [⟨"Z", "Zed", none, none, 0⟩]⟩ "t2").1 = .ok ()
        ∧ (update_folders
            ⟨[⟨1, "acct", "JMAP"⟩],
             [⟨some 1, "A", "Alpha", none, none, 0⟩], [⟨"folders-state", "t1"⟩]⟩
            ⟨[], [], [⟨"Z", "Zed", none, none, 0⟩]⟩ "t2").2.folders
          = [⟨some 1, "A", "Alpha", none, none, 0⟩]
        ∧ (update_folders
            ⟨[⟨1, "acct", "JMAP"⟩],
             [⟨some 1, "A", "Alpha", none, none, 0⟩], [⟨"folders-state", "t1"⟩]⟩
            ⟨[], [], [⟨"Z", "Zed", none, none, 0⟩]⟩ "t2").2.accounts
          = [⟨1, "acct", "JMAP"⟩]
        ∧ (update_folders
            ⟨[⟨1, "acct", "JMAP"⟩],
             [⟨some 1, "A", "Alpha", none, none, 0⟩], [⟨"folders-state", "t1"⟩]⟩
            ⟨[], [], [⟨"Z", "Zed", none, none, 0⟩]⟩ "t2").2.misc
          = [⟨"folders-state", "t2"⟩]
        ∧ folders_state (update_folders
            ⟨[⟨1, "acct", "JMAP"⟩],
             [⟨some 1, "A", "Alpha", none, none, 0⟩], [⟨"folders-state", "t1"⟩]⟩
            ⟨[], [], [⟨"Z", "Zed", none, none, 0⟩]⟩ "t2").2 = some "t2") := by
  refine ⟨rfl, rfl, by decide, ?_⟩
  have h := update_folders_unmatched_update_frame
    ⟨[⟨1, "acct", "JMAP"⟩],
     [⟨some 1, "A", "Alpha", none, none, 0⟩], [⟨"folders-state", "t1"⟩]⟩
    ⟨[], [], [⟨"Z", "Zed", none, none, 0⟩]⟩ "t2" "t1" rfl rfl (by decide) (by decide)
    (by decide)
  exact ⟨h.1, h.2.1, h.2.2.1, by rw [h.2.2.2.1]; rfl, h.2.2.2.2⟩

/-! ### Claim C3 -/

/-- C3 counterexample: a changes response reporting `updated = ["X"]` with
`updatedProperties` null (no property list, i.e. the changed-property set is
not known) does NOT shape an empty updated set: the fetched object for `X` is
placed in the diff, and applying the diff rewrites `X`'s row (here its name
changes from `Old` to `New`), contradicting the claim that no update is
applied in this sync pass. -/
theorem updated_without_property_list_applied_cex :
    (get_folder_changes "t1" ⟨"t2", [], ["X"], [], none⟩ []
        [⟨"X", "New", none, none, 0⟩]).2.updated
      = [⟨"X", "New", none, none, 0⟩]
    ∧ update_folders
        ⟨[⟨1, "acct", "JMAP"⟩], [⟨some 1, "X", "Old", none, none, 0⟩],
         [⟨"folders-state", "t1"⟩]⟩
        (get_folder_changes "t1" ⟨"t2", [], ["X"], [], none⟩ []
          [⟨"X", "New", none, none, 0⟩]).2
        (get_folder_changes "t1" ⟨"t2", [], ["X"], [], none⟩ []
          [⟨"X", "New", none, none, 0⟩]).1
      = (.ok (),
         ⟨[⟨1, "acct", "JMAP"⟩], [⟨some 1, "X", "New", none, none, 0⟩],
          [⟨"folders-state", "t2"⟩]⟩) :=
  ⟨by decide, by decide⟩

/-- C3 amended: updates are skipped exactly in the counts-only case.  For
every changes response whose `updatedProperties` is a non-empty property list
(the JMAP counts-only signal), the Reconciler shapes an empty updated set —
no update is applied to any node in this sync pass — and (for an otherwise
empty response against a synced mirror) the token still advances to the new
token.  When `updatedProperties` is null, the updated objects are fetched and
applied instead. -/
theorem counts_only_update_skip (db : DB) (tok st0 : String)
    (resp : MailboxChangesResp) (cObjs uObjs : List MailboxObj) (l : List String)
    (hup : resp.updatedProperties = some l) (hl : l ≠ [])
    (hcr : resp.created = []) (hde : resp.destroyed = [])
    (ht : folders_state db = some st0) (hst : resp.newState ≠ "") :
    (get_folder_changes tok resp cObjs uObjs).2.updated = []
    ∧ (get_folder_changes tok resp cObjs uObjs).2.created = []
    ∧ (get_folder_changes tok resp cObjs uObjs).2.deleted = []
    ∧ (update_folders db (get_folder_changes tok resp cObjs uObjs).2
         (get_folder_changes tok resp cObjs uObjs).1).1 = .ok ()
    ∧ (update_folders db (get_folder_changes tok resp cObjs uObjs).2
         (get_folder_changes tok resp cObjs uObjs).1).2.folders = db.folders
    ∧ folders_state (update_folders db (get_folder_changes tok resp cObjs uObjs).2
         (get_folder_changes tok resp cObjs uObjs).1).2 = some resp.newState := by
  obtain ⟨x, xs, hxl⟩ := List.exists_cons_of_ne_nil hl
  have hsh : get_folder_changes tok resp cObjs uObjs
      = (resp.newState, { created := [], deleted := [], updated := [] }) := by
    simp [get_folder_changes, hup, hcr, hde, hxl, pyTruthyList, pyTruthyOptList]
  rw [hsh]
  have h := update_folders_noop_update_frame db
    { created := [], deleted := [], updated := [] } resp.newState st0 rfl rfl
    (fun u hu => absurd hu (List.not_mem_nil u)) ht hst
  exact ⟨rfl, rfl, rfl, h.1, h.2.1, h.2.2.2.2⟩

/-- C3 amended witness: `updated = ["X"]` with the counts-only property list
`["totalEmails"]` yields an empty diff and the token advances to `t2`. -/
theorem counts_only_update_skip_witness :
    ((⟨"t2", [], ["X"], [], some ["totalEmails"]⟩ : MailboxChangesResp).updatedProperties
        = some ["totalEmails"])
    ∧ (["totalEmails"] : List String) ≠ []
    ∧ ((get_folder_changes "t1" ⟨"t2", [], ["X"], [], some ["totalEmails"]⟩ []
          [⟨"X", "New", none, none, 0⟩]).2.updated = []
        ∧ (get_folder_changes "t1" ⟨"t2", [], ["X"], [], some ["totalEmails"]⟩ []
            [⟨"X", "New", none, none, 0⟩]).2.created = []
        ∧ (get_folder_changes "t1" ⟨"t2", [], ["X"], [], some ["totalEmails"]⟩ []
            [⟨"X", "New", none, none, 0⟩]).2.deleted = []
        ∧ (update_folders
            ⟨[⟨1, "acct", "JMAP"⟩], [⟨some 1, "X", "Old", none, none, 0⟩],
             [⟨"folders-state", "t1"⟩]⟩
            (get_folder_changes "t1" ⟨"t2", [], ["X"], [], some ["totalEmails"]⟩ []
              [⟨"X", "New", none, none, 0⟩]).2
            (get_folder_changes "t1" ⟨"t2", [], ["X"], [], some ["totalEmails"]⟩ []
              [⟨"X", "New", none, none, 0⟩]).1).1 = .ok ()
        ∧ (update_folders
            ⟨[⟨1, "acct", "JMAP"⟩], [⟨some 1, "X", "Old", none, none, 0⟩],
             [⟨"folders-state", "t1"⟩]⟩
            (get_folder_changes "t1" ⟨"t2", [], ["X"], [], some ["totalEmails"]⟩ []
              [⟨"X", "New", none, none, 0⟩]).2
            (get_folder_changes "t1" ⟨"t2", [], ["X"], [], some ["totalEmails"]⟩ []
              [⟨"X", "New", none, none, 0⟩]).1).2.folders
          = [⟨some 1, "X", "Old", none, none, 0⟩]
        ∧ folders_state (update_folders
            ⟨[⟨1, "acct", "JMAP"⟩], [⟨some 1, "X", "Old", none, none, 0⟩],
             [⟨"folders-state", "t1"⟩]⟩
            (get_folder_changes "t1" ⟨"t2", [], ["X"], [], some ["totalEmails"]⟩ []
              [⟨"X", "New", none, none, 0⟩]).2
            (get_folder_changes "t1" ⟨"t2", [], ["X"], [], some ["totalEmails"]⟩ []
              [⟨"X", "New", none, none, 0⟩]).1).2 = some "t2") :=
  ⟨rfl, by decide,
   counts_only_update_skip
     ⟨[⟨1, "acct", "JMAP"⟩], [⟨some 1, "X", "Old", none, none, 0⟩],
      [⟨"folders-state", "t1"⟩]⟩ "t1" "t1"
     ⟨"t2", [], ["X"], [], some ["totalEmails"]⟩ [] [⟨"X", "New", none, none, 0⟩]
     ["totalEmails"] rfl (by decide) rfl rfl (by decide) (by decide)⟩

/-! ### Claim C6 -/

/-- Inserting into `misc` when a row with the same key already exists always
fails (with a CHECK or the UNIQUE violation). -/
theorem insertMisc_key_exists (misc : List MiscRow) (k v : String) (r : MiscRow)
    (hf : misc.find? (fun q => q.key == k) = some r) :
    ∃ e, insertMisc misc k v = .error e := by
  unfold insertMisc
  by_cases h1 : k = ""
  · exact ⟨.check, by rw [if_pos h1]⟩
  by_cases h2 : v = ""
  · exact ⟨.check, by rw [if_neg h1, if_pos h2]⟩
  have hkey := List.find?_some hf
  have hany : misc.any (fun q => q.key == k) = true :=
    List.any_eq_true.mpr ⟨r, List.mem_of_find?_eq_some hf, hkey⟩
  exact ⟨.uniq, by rw [if_neg h1, if_neg h2, if_pos hany]⟩

/-- C6 counterexample: with token `t0` already persisted (and an empty folder
table), `save_folders` does not raise the specification's StateConflictError;
it fails with `sqlite3.IntegrityError` — the UNIQUE violation on `misc.key` —
rolling the transaction back. -/
theorem save_folders_existing_token_cex :
    save_folders ⟨[], [], [⟨"folders-state", "t0"⟩]⟩ [] "t1" "acct"
      = (.error (.integrityError .uniq), ⟨[], [], [⟨"folders-state", "t0"⟩]⟩)
    ∧ (save_folders ⟨[], [], [⟨"folders-state", "t0"⟩]⟩ [] "t1" "acct").1
      ≠ .error .stateConflictError :=
  ⟨by decide, by decide⟩

/-- C6 amended: for every state where a token is already persisted for the
folder collection, `save_folders` fails — with a `sqlite3.IntegrityError`
(in the clean case the UNIQUE violation on `misc.key`), not with the
specification's StateConflictError — and the transaction rolls back, leaving
the mirror (accounts, folders and token) unchanged. -/
theorem save_folders_existing_token_fails (db : DB) (folders : List NewFolder)
    (st an t0 : String) (ht : folders_state db = some t0) :
    ∃ k, save_folders db folders st an = (.error (.integrityError k), db) := by
  rcases hfr : db.misc.find? (fun q => q.key == "folders-state") with _ | r
  · rw [folders_state, hfr] at ht
    exact absurd ht (by simp)
  obtain ⟨res, hres⟩ : ∃ r, save_folders db folders st an = r := ⟨_, rfl⟩
  rw [hres]
  unfold save_folders sqlite_txn at hres
  split at hres
  case h_1 db2 heq =>
    exfalso
    split at heq
    · exact absurd heq (by simp)
    split at heq
    · exact absurd heq (by simp)
    split at heq
    · exact absurd heq (by simp)
    next misc2 hmisc =>
      rcases insertMisc_key_exists db.misc "folders-state" st r hfr with ⟨e, he⟩
      rw [he] at hmisc
      exact absurd hmisc (by simp)
  case h_2 e heq =>
    split at heq
    next e2 hacc =>
      injection heq with h2
      exact ⟨e2, by rw [← hres, ← h2]⟩
    split at heq
    next e2 hfold =>
      injection heq with h2
      exact ⟨e2, by rw [← hres, ← h2]⟩
    split at heq
    next e2 hmisc =>
      injection heq with h2
      exact ⟨e2, by rw [← hres, ← h2]⟩
    · exact absurd heq (by simp)

/-- C6 amended witness: on a mirror with token `t0`, one account and one
folder row, a fresh `save_folders` call fails with an IntegrityError and
changes nothing. -/
theorem save_folders_existing_token_fails_witness :
    folders_state
      ⟨[⟨1, "acct", "JMAP"⟩], [⟨some 1, "A", "Alpha", none, none, 0⟩],
       [⟨"folders-state", "t0"⟩]⟩ = some "t0"
    ∧ (∃ k, save_folders
        ⟨[⟨1, "acct", "JMAP"⟩], [⟨some 1, "A", "Alpha", none, none, 0⟩],
         [⟨"folders-state", "t0"⟩]⟩
        [⟨"B", "Beta", none, none, 0⟩] "t1" "acct2"
      = (.error (.integrityError k),
         ⟨[⟨1, "acct", "JMAP"⟩], [⟨some 1, "A", "Alpha", none, none, 0⟩],
          [⟨"folders-state", "t0"⟩]⟩)) :=
  ⟨by decide,
   save_folders_existing_token_fails
     ⟨[⟨1, "acct", "JMAP"⟩], [⟨some 1, "A", "Alpha", none, none, 0⟩],
      [⟨"folders-state", "t0"⟩]⟩
     [⟨"B", "Beta", none, none, 0⟩] "t1" "acct2" "t0" (by decide)⟩

/-! ### Claim C7 -/

/-- C7: on every sync run, exactly one of the two paths is taken, decided
solely by the presence of the persisted token: with no token, the pass is a
full fetch handed to `save_folders` with the fetched nodes and token; with a
token (never empty, by the CHECK constraint on `misc.value`, here taken as a
hypothesis on the state), the pass requests changes since that token and
hands the shaped diff and the new token to `update_folders`. -/
theorem main_sync_branches (db : DB) (an : String) (full : FullResp)
    (resp : MailboxChangesResp) (cObjs uObjs : List MailboxObj)
    (hv : db.misc.all (fun r => r.value != "") = true) :
    (folders_state db = none
       ∧ main_sync db an full resp cObjs uObjs
           = save_folders db (server_get_folders full).2 (server_get_folders full).1 an)
    ∨ (∃ t, folders_state db = some t
       ∧ main_sync db an full resp cObjs uObjs
           = update_folders db (get_folder_changes t resp cObjs uObjs).2
               (get_folder_changes t resp cObjs uObjs).1) := by
  rcases hf : folders_state db with _ | t
  · left
    refine ⟨rfl, ?_⟩
    simp only [main_sync, hf]
  · right
    have htne : t ≠ "" := by
      rw [folders_state] at hf
      rcases hr : db.misc.find? (fun q => q.key == "folders-state") with _ | r
      · rw [hr] at hf
        exact absurd hf (by simp)
      · rw [hr] at hf
        have hval : r.value = t := by
          simpa using hf
        have hne := List.all_eq_true.mp hv r (List.mem_of_find?_eq_some hr)
        rw [hval] at hne
        simpa using hne
    refine ⟨t, rfl, ?_⟩
    simp only [main_sync, hf, if_neg htne]

/-- C7 witness: on a mirror already holding token `t1`, the run takes the
incremental path. -/
theorem main_sync_branches_witness :
    (([⟨"folders-state", "t1"⟩] : List MiscRow).all (fun r => r.value != "") = true)
    ∧ ((folders_state ⟨[⟨1, "acct", "JMAP"⟩], [], [⟨"folders-state", "t1"⟩]⟩ = none
        ∧ main_sync ⟨[⟨1, "acct", "JMAP"⟩], [], [⟨"folders-state", "t1"⟩]⟩ "acct"
            ⟨"t9", []⟩ ⟨"t2", [], [], ["A"], none⟩ [] []
          = save_folders ⟨[⟨1, "acct", "JMAP"⟩], [], [⟨"folders-state", "t1"⟩]⟩
              (server_get_folders ⟨"t9", []⟩).2 (server_get_folders ⟨"t9", []⟩).1 "acct")
      ∨ (∃ t, folders_state ⟨[⟨1, "acct", "JMAP"⟩], [], [⟨"folders-state", "t1"⟩]⟩ = some t
        ∧ main_sync ⟨[⟨1, "acct", "JMAP"⟩], [], [⟨"folders-state", "t1"⟩]⟩ "acct"
            ⟨"t9", []⟩ ⟨"t2", [], [], ["A"], none⟩ [] []
          = update_folders ⟨[⟨1, "acct", "JMAP"⟩], [], [⟨"folders-state", "t1"⟩]⟩
              (get_folder_changes t ⟨"t2", [], [], ["A"], none⟩ [] []).2
              (get_folder_changes t ⟨"t2", [], [], ["A"], none⟩ [] []).1)) :=
  ⟨by decide,
   main_sync_branches ⟨[⟨1, "acct", "JMAP"⟩], [], [⟨"folders-state", "t1"⟩]⟩ "acct"
     ⟨"t9", []⟩ ⟨"t2", [], [], ["A"], none⟩ [] [] (by decide)⟩

/-! ### Claim C9 -/

/-- C9 counterexample: looking up an id absent from the mirror does not
produce a NotFound result — `fetchone()` returns `None` and the subsequent
subscript raises an uncaught Python `TypeError` (the call crashes). -/
theorem get_folder_missing_crash_cex :
    get_folder ⟨[⟨1, "acct", "JMAP"⟩], [⟨some 1, "A", "Alpha", none, none, 0⟩],
        [⟨"folders-state", "t1"⟩]⟩ "Z"
      = .error .typeError := by
  decide

/-- C9 amended: for every id, `get_folder` returns the stored node's
`{id, name}` when a node with that `server_id` exists in the mirror, and
raises an uncaught TypeError (crashes) — rather than returning a NotFound
result — when no such node exists. -/
theorem get_folder_found_or_crash (db : DB) (fid : String) :
    (∃ r ∈ db.folders, r.server_id = fid ∧ get_folder db fid = .ok ⟨fid, r.name⟩)
    ∨ (db.folders.all (fun r => r.server_id != fid) = true
        ∧ get_folder db fid = .error .typeError) := by
  rcases hf : db.folders.find? (fun r => r.server_id == fid) with _ | r
  · right
    rw [List.find?_eq_none] at hf
    refine ⟨List.all_eq_true.mpr (fun r hr => by simpa using hf r hr), ?_⟩
    unfold get_folder
    rw [List.find?_eq_none.mpr hf]
  · left
    have hid : r.server_id = fid := by
      have := List.find?_some hf
      rwa [beq_iff_eq] at this
    subst hid
    refine ⟨r, List.mem_of_find?_eq_some hf, rfl, ?_⟩
    unfold get_folder
    rw [hf]

/-! ### Claim C8 -/

/-- C8 counterexample: `get_folders` with the empty-string parent id does not
return the nodes whose parent reference equals that id (there are none — the
CHECK constraint even forbids an empty `parent_server_id`): the Python
truthiness test `if parent_id:` treats `""` like `None`, so the root nodes
are returned instead. -/
theorem get_folders_empty_parent_cex :
    get_folders ⟨[⟨1, "acct", "JMAP"⟩], [⟨some 1, "A", "Alpha", none, none, 0⟩],
        [⟨"folders-state", "t1"⟩]⟩ (some "")
      = [⟨"A", "Alpha"⟩]
    ∧ ([⟨some 1, "A", "Alpha", none, none, 0⟩] : List FolderRow).filter
        (fun r => r.parent_server_id == some "") = [] :=
  ⟨by decide, by decide⟩

/-- C8 amended: for every mirror state and every parentId other than the
empty string, `get_folders` returns exactly the nodes whose parent reference
equals parentId (the root nodes, with null parent, when parentId is null),
presented in an order sorted by `(sort_order, name)`; parentId = `""` is
treated like null (the root listing) instead. -/
theorem get_folders_filter_sorted (db : DB) (pid : Option String)
    (hp : pid ≠ some "") :
    ∃ rows : List FolderRow,
      List.Perm rows (db.folders.filter (fun r => r.parent_server_id == pid))
      ∧ List.Sorted folderLe rows
      ∧ get_folders db pid
          = rows.map (fun r => ({ server_id := r.server_id, name := r.name } : FolderSummary)) := by
  refine ⟨List.insertionSort folderLe
      (db.folders.filter (fun r => r.parent_server_id == pid)),
    List.perm_insertionSort folderLe _, List.sorted_insertionSort folderLe _, ?_⟩
  unfold get_folders
  rcases pid with _ | p
  · rfl
  · have hne : p ≠ "" := fun h => hp (by rw [h])
    have htr : pyTruthyStr (some p) = true := by
      unfold pyTruthyStr
      simpa using hne
    rw [htr]
    simp only [if_true]

/-- The mirror produced by the full-fetch bootstrap of claim C8's example:
nodes A (root), B (child of A), C (root) and token `t1`. -/
def dbBootstrap : DB :=
  (save_folders ⟨[], [], []⟩
    [⟨"A", "Alpha", none, none, 0⟩, ⟨"B", "Beta", none, some "A", 1⟩,
     ⟨"C", "Gamma", none, none, 1⟩] "t1" "acct").2

/-- C8 amended witness: the bootstrap example — `get_folders` on the mirror
initialized with A (root), B (child of A), C (root) lists `[A, C]` at the
root and `[B]` under A, and the sorted-filter characterization holds at
parentId `A`. -/
theorem get_folders_filter_sorted_witness :
    ((some "A" : Option String) ≠ some "")
    ∧ get_folders dbBootstrap none = [⟨"A", "Alpha"⟩, ⟨"C", "Gamma"⟩]
    ∧ get_folders dbBootstrap (some "A") = [⟨"B", "Beta"⟩]
    ∧ (∃ rows : List FolderRow,
        List.Perm rows (dbBootstrap.folders.filter
          (fun r => r.parent_server_id == some "A"))
        ∧ List.Sorted folderLe rows
        ∧ get_folders dbBootstrap (some "A")
            = rows.map (fun r =>
                ({ server_id := r.server_id, name := r.name } : FolderSummary))) :=
  ⟨by decide, by decide, by decide,
   get_folders_filter_sorted dbBootstrap (some "A") (by decide)⟩

/-! ### Claim C2 -/

/-- C2 (failing input): the Reconciler does not reorder the created set by
hierarchy depth — the shaped `created` list preserves the protocol response
order, child `B` before its parent `A` — and applying the diff does not
succeed: the INSERT issued by `update_folders` omits the NOT NULL
`account_id` column, so the very first created folder raises an
IntegrityError, the transaction rolls back, and neither row is present
afterwards (the database is unchanged, token still `t1`). -/
theorem created_child_first_insert_fails :
    (get_folder_changes "t1" ⟨"t2", ["B", "A"], [], [], none⟩
        [⟨"B", "Beta", none, some "A", 0⟩, ⟨"A", "Alpha", none, none, 0⟩] []).2.created
      = [⟨"B", "Beta", none, some "A", 0⟩, ⟨"A", "Alpha", none, none, 0⟩]
    ∧ update_folders ⟨[⟨1, "acct", "JMAP"⟩], [], [⟨"folders-state", "t1"⟩]⟩
        (get_folder_changes "t1" ⟨"t2", ["B", "A"], [], [], none⟩
          [⟨"B", "Beta", none, some "A", 0⟩, ⟨"A", "Alpha", none, none, 0⟩] []).2
        (get_folder_changes "t1" ⟨"t2", ["B", "A"], [], [], none⟩
          [⟨"B", "Beta", none, some "A", 0⟩, ⟨"A", "Alpha", none, none, 0⟩] []).1
      = (.error (.integrityError .notNull),
         ⟨[⟨1, "acct", "JMAP"⟩], [], [⟨"folders-state", "t1"⟩]⟩) :=
  ⟨by decide, by decide⟩

end EmailClient
